import Mathlib

/-!
# libimp/aligned.h : uninitialised, aligned storage for a hosted type

A shallow embedding of the class template

    template <typename T, std::size_t AlignT = alignof(T)>
    class aligned {
      alignas(AlignT) std::array<::LIBIMP::byte, sizeof(T)> storage_;
     public:
      T *ptr() noexcept;  T const *ptr() const noexcept;
      T &ref() noexcept;  T const &ref() const noexcept;
    };

Memory is a flat, byte-addressed space.  An instance is identified by the
address of its only data member, storage_.  Pointers and references are typed
addresses; loads and stores go through the object representation of the hosted
type.  The accessors are written in state-passing style over the memory, so that
their (absent) effect on memory can be stated.
-/

namespace libimp

/-! ## Memory -/

/-- Modelled from the spec: libimp/byte.h is not part of the sources; a byte is one
memory cell, here eight uninterpreted bits. -/
abbrev byte := Fin 256

/-- An address in the flat address space. -/
abbrev Addr := Nat

/-- The memory: one byte per address. -/
abbrev Mem := Addr → byte

/-- The n bytes of memory starting at address a. -/
def load_bytes (m : Mem) (a : Addr) (n : Nat) : List byte :=
  (List.range n).map (fun i => m (a + i))

/-- The memory after the bytes bs have been written starting at address a. -/
def store_bytes (m : Mem) (a : Addr) (bs : List byte) : Mem :=
  fun x => if h : a ≤ x ∧ x - a < bs.length then bs.get ⟨x - a, h.2⟩ else m x

/-! ## Hosted types -/

/-- What the template needs to know of a hosted type T: sizeof(T), alignof(T), and
the object representation of its values (the bytes a value occupies in memory). -/
class Hosted (T : Type) where
  /-- The value of sizeof(T). -/
  sizeof : Nat
  /-- The value of alignof(T). -/
  alignof : Nat
  /-- The object representation of a value. -/
  to_bytes : T → List byte
  /-- The value held by an object representation. -/
  of_bytes : List byte → T
  /-- An object representation has sizeof(T) bytes. -/
  to_bytes_length : ∀ v : T, (to_bytes v).length = sizeof
  /-- Reading an object representation gives back the value written. -/
  of_to_bytes : ∀ v : T, of_bytes (to_bytes v) = v

/-- A 32-bit int, given by its two's-complement bit pattern. -/
structure int where
  /-- The bit pattern, as a number below 2^32. -/
  bits : Nat
  /-- The pattern fits 32 bits. -/
  bits_lt : bits < 4294967296
  deriving DecidableEq

/-- The little-endian object representation of a 32-bit int. -/
def int.to_bytes (v : int) : List byte :=
  [Fin.ofNat (v.bits % 256), Fin.ofNat (v.bits / 256 % 256),
   Fin.ofNat (v.bits / 65536 % 256), Fin.ofNat (v.bits / 16777216 % 256)]

/-- The 32-bit int held by four little-endian bytes (0 for any other length). -/
def int.of_bytes : List byte → int
  | [b0, b1, b2, b3] =>
      ⟨b0.val + 256 * b1.val + 65536 * b2.val + 16777216 * b3.val, by omega⟩
  | _ => ⟨0, by decide⟩

/-- The hosted type int: four bytes, aligned to four. -/
instance : Hosted int where
  sizeof := 4
  alignof := 4
  to_bytes := int.to_bytes
  of_bytes := int.of_bytes
  to_bytes_length := fun _ => rfl
  of_to_bytes := by
    intro v
    obtain ⟨n, hn⟩ := v
    simp only [int.to_bytes, int.of_bytes, Fin.ofNat, int.mk.injEq]
    simp only [Nat.mod_mod, Nat.mod_succ]
    omega

/-! ## Typed pointers and references -/

/-- A pointer to T: the address it holds. -/
structure Ptr (T : Type) where
  /-- The address held. -/
  addr : Addr
  deriving DecidableEq

/-- A pointer to const T: the address it holds.  It can be read through, not written. -/
structure ConstPtr (T : Type) where
  /-- The address held. -/
  addr : Addr
  deriving DecidableEq

/-- A reference to T: the address of the object it designates. -/
structure Ref (T : Type) where
  /-- The address of the designated object. -/
  addr : Addr
  deriving DecidableEq

/-- A reference to const T: the address of the object it designates. -/
structure ConstRef (T : Type) where
  /-- The address of the designated object. -/
  addr : Addr
  deriving DecidableEq

/-- The value read at an address: the sizeof(T) bytes there, taken as a T. -/
def load (T : Type) [Hosted T] (m : Mem) (a : Addr) : T :=
  Hosted.of_bytes (load_bytes m a (Hosted.sizeof T))

/-- The memory after a value has been written at an address. -/
def store {T : Type} [Hosted T] (m : Mem) (a : Addr) (v : T) : Mem :=
  store_bytes m a (Hosted.to_bytes v)

/-- The expression *p on a pointer: the object at the address held. -/
def Ptr.deref {T : Type} (p : Ptr T) : Ref T := ⟨p.addr⟩

/-- The expression *p on a pointer to const. -/
def ConstPtr.deref {T : Type} (p : ConstPtr T) : ConstRef T := ⟨p.addr⟩

/-- Reading the T a pointer points to. -/
def Ptr.read {T : Type} [Hosted T] (p : Ptr T) (m : Mem) : T := load T m p.addr

/-- Reading the T a pointer to const points to. -/
def ConstPtr.read {T : Type} [Hosted T] (p : ConstPtr T) (m : Mem) : T := load T m p.addr

/-- Reading the T a reference designates. -/
def Ref.read {T : Type} [Hosted T] (r : Ref T) (m : Mem) : T := load T m r.addr

/-- Reading the T a reference to const designates. -/
def ConstRef.read {T : Type} [Hosted T] (r : ConstRef T) (m : Mem) : T := load T m r.addr

/-- Writing through a pointer, as in *p = v. -/
def Ptr.write {T : Type} [Hosted T] (p : Ptr T) (v : T) (m : Mem) : Mem := store m p.addr v

/-- Writing through a reference, as in r = v. -/
def Ref.write {T : Type} [Hosted T] (r : Ref T) (v : T) (m : Mem) : Mem := store m r.addr v

/-- Placement construction of the value v at the address held by p, as in ::new (p) T(v). -/
def placement_new {T : Type} [Hosted T] (p : Ptr T) (v : T) (m : Mem) : Mem :=
  store m p.addr v

/-! ## Layout of the class -/

/-- The least multiple of a that is not below n, computed the usual way. -/
def align_up (n a : Nat) : Nat := (n + a - 1) / a * a

/-- The alignment of std::array<byte, N>: that of one byte. -/
def array_alignof : Nat := 1

/-- The size of std::array<byte, N>: N cells of one byte. -/
def array_sizeof (N : Nat) : Nat := N

/-- The alignment of the member declared at aligned.h:26,
alignas(AlignT) std::array<byte, sizeof(T)> storage_: the requested AlignT; alignas(0) is
ignored and leaves the alignment of the array. -/
def storage_alignof (AlignT : Nat) : Nat := max AlignT array_alignof

/-- The alignment of the class aligned<T, AlignT>: that of its only data member. -/
def aligned_alignof (AlignT : Nat) : Nat := storage_alignof AlignT

/-- The value of sizeof(aligned<T, AlignT>): the only member is at offset 0, and the size
of a class is a multiple of its alignment, so the sizeof(T) bytes of storage_ are padded up
to the next multiple of the alignment. -/
def aligned_sizeof (T : Type) [Hosted T] (AlignT : Nat) : Nat :=
  align_up (array_sizeof (Hosted.sizeof T)) (aligned_alignof AlignT)

/-- The address of element i of an array of aligned<T, AlignT> that starts at base. -/
def array_element_addr (T : Type) [Hosted T] (AlignT : Nat) (base : Addr) (i : Nat) : Addr :=
  base + i * aligned_sizeof T AlignT

/-- The template parameter AlignT after default-argument resolution
(aligned.h:24, std::size_t AlignT = alignof(T)): the explicit argument when one is given,
alignof(T) when it is omitted. -/
def resolve_AlignT (T : Type) [Hosted T] (explicit : Option Nat) : Nat :=
  match explicit with
  | some a => a
  | none => Hosted.alignof T

/-! ## The class -/

/-- An instance of aligned<T, AlignT>.  Its only data member is storage_, a
std::array<byte, sizeof(T)> declared alignas(AlignT); the instance is given by the address
at which that member lives, which the alignas specifier constrains. -/
structure aligned (T : Type) [Hosted T] (AlignT : Nat) where
  /-- The address of the member storage_. -/
  storage_ : Addr
  /-- The effect of alignas(AlignT) on the member. -/
  alignas_storage_ : storage_alignof AlignT ∣ storage_

/-- The type named by aligned<T> (no alignment argument) or aligned<T, A>. -/
abbrev aligned_t (T : Type) [Hosted T] (explicit : Option Nat) : Type :=
  aligned T (resolve_AlignT T explicit)

/-- The member function std::array::data(): the address of the first element, which is
the address of the array. -/
def array_data (arr : Addr) : Addr := arr

namespace aligned

variable {T : Type} [Hosted T] {AlignT : Nat}

/-- The bytes of the buffer storage_ in a memory. -/
def storage_bytes (self : aligned T AlignT) (m : Mem) : List byte :=
  load_bytes m self.storage_ (array_sizeof (Hosted.sizeof T))

/-- T *ptr() noexcept: return reinterpret_cast<T *>(storage_.data()). -/
def ptr (self : aligned T AlignT) (m : Mem) : Ptr T × Mem :=
  (⟨array_data self.storage_⟩, m)

/-- T const *ptr() const noexcept: return reinterpret_cast<const T *>(storage_.data()). -/
def ptr_const (self : aligned T AlignT) (m : Mem) : ConstPtr T × Mem :=
  (⟨array_data self.storage_⟩, m)

/-- T &ref() noexcept: return *ptr(). -/
def ref (self : aligned T AlignT) (m : Mem) : Ref T × Mem :=
  let r := self.ptr m
  (r.1.deref, r.2)

/-- T const &ref() const noexcept: return *ptr(), with the const overload of ptr. -/
def ref_const (self : aligned T AlignT) (m : Mem) : ConstRef T × Mem :=
  let r := self.ptr_const m
  (r.1.deref, r.2)

end aligned

/-- What a caller can do with an instance: call one of the four accessors, or write a
value through the pointer or the reference an accessor returned, or placement-construct a
value at the pointer. -/
inductive Op (T : Type) where
  | call_ptr : Op T
  | call_ptr_const : Op T
  | call_ref : Op T
  | call_ref_const : Op T
  | write_ptr (v : T) : Op T
  | write_ref (v : T) : Op T
  | construct (v : T) : Op T

/-- The memory after one operation on an instance. -/
def aligned.step {T : Type} [Hosted T] {AlignT : Nat} (self : aligned T AlignT) (m : Mem) :
    Op T → Mem
  | Op.call_ptr => (self.ptr m).2
  | Op.call_ptr_const => (self.ptr_const m).2
  | Op.call_ref => (self.ref m).2
  | Op.call_ref_const => (self.ref_const m).2
  | Op.write_ptr v => (self.ptr m).1.write v (self.ptr m).2
  | Op.write_ref v => (self.ref m).1.write v (self.ref m).2
  | Op.construct v => placement_new (self.ptr m).1 v (self.ptr m).2

/-- The memory after a sequence of operations on an instance. -/
def aligned.run {T : Type} [Hosted T] {AlignT : Nat} (self : aligned T AlignT) (m : Mem)
    (ops : List (Op T)) : Mem :=
  ops.foldl self.step m

/-- An int buffer with the stricter alignment 32, at address 96. -/
def sample_int_32 : aligned int 32 := ⟨96, by decide⟩

/-- A memory holding zero everywhere. -/
def zero_mem : Mem := fun _ => 0

/-- An int buffer with the default alignment, at address 100. -/
def sample_int_4 : aligned_t int none := ⟨100, by decide⟩

/-- The int 42. -/
def int_42 : int := ⟨42, by decide⟩

/-! ## Lemmas on memory -/

theorem load_bytes_length (m : Mem) (a : Addr) (n : Nat) :
    (load_bytes m a n).length = n := by
  simp [load_bytes]

theorem load_store_bytes (m : Mem) (a : Addr) (bs : List byte) :
    load_bytes (store_bytes m a bs) a bs.length = bs := by
  apply List.ext_getElem
  · simp [load_bytes]
  · intro i h1 h2
    simp [load_bytes, store_bytes, h2]

theorem load_store {T : Type} [Hosted T] (m : Mem) (a : Addr) (v : T) :
    load T (store m a v) a = v := by
  unfold load store
  rw [← Hosted.to_bytes_length v, load_store_bytes, Hosted.of_to_bytes]

/-! ## Lemmas on rounding up -/

theorem align_up_dvd (n a : Nat) : a ∣ align_up n a :=
  Dvd.intro_left _ rfl

theorem le_align_up (n a : Nat) (ha : 0 < a) : n ≤ align_up n a := by
  unfold align_up
  have h := Nat.div_add_mod (n + a - 1) a
  have h2 := Nat.mod_lt (n + a - 1) ha
  rw [Nat.mul_comm] at h
  omega

theorem align_up_le_of_dvd (n a k : Nat) (ha : 0 < a) (hk : n ≤ k) (hd : a ∣ k) :
    align_up n a ≤ k := by
  obtain ⟨c, rfl⟩ := hd
  unfold align_up
  have h1 : (n + a - 1) / a ≤ c := by
    apply Nat.le_of_lt_succ
    rw [Nat.div_lt_iff_lt_mul ha, Nat.succ_mul, Nat.mul_comm c a]
    omega
  calc (n + a - 1) / a * a ≤ c * a := Nat.mul_le_mul_right a h1
    _ = a * c := Nat.mul_comm c a

theorem align_up_eq_iff (n a : Nat) (ha : 0 < a) : align_up n a = n ↔ a ∣ n := by
  constructor
  · intro h
    rw [← h]
    exact align_up_dvd n a
  · intro h
    exact Nat.le_antisymm (align_up_le_of_dvd n a n ha (Nat.le_refl n) h) (le_align_up n a ha)

theorem storage_alignof_pos (AlignT : Nat) (hA : 0 < AlignT) : storage_alignof AlignT = AlignT := by
  unfold storage_alignof array_alignof
  omega

/-! ## Size of an instance -/

/-- C1, as stated, fails: for the hosted type int (sizeof 4) and the alignment 32 the class
aligned<int, 32> has size 32, not sizeof(int) = 4. -/
theorem aligned_sizeof_int_32 :
    aligned_sizeof int 32 = 32 ∧ Hosted.sizeof int = 4 ∧
      ¬ (aligned_sizeof int 32 = Hosted.sizeof int) := by
  decide

/-- C1, amended: for every hosted type T and every alignment A ≥ 1, the buffer storage_ of an
instance holds exactly sizeof(T) bytes, the instance occupies at least sizeof(T) bytes, and it
occupies exactly sizeof(T) bytes when A divides sizeof(T). -/
theorem storage_holds_sizeof {T : Type} [Hosted T] {AlignT : Nat} (self : aligned T AlignT)
    (m : Mem) (hA : 0 < AlignT) :
    (self.storage_bytes m).length = Hosted.sizeof T ∧
      Hosted.sizeof T ≤ aligned_sizeof T AlignT ∧
      (AlignT ∣ Hosted.sizeof T → aligned_sizeof T AlignT = Hosted.sizeof T) := by
  refine ⟨load_bytes_length _ _ _, ?_, ?_⟩
  · unfold aligned_sizeof aligned_alignof array_sizeof
    rw [storage_alignof_pos AlignT hA]
    exact le_align_up _ _ hA
  · intro h
    unfold aligned_sizeof aligned_alignof array_sizeof
    rw [storage_alignof_pos AlignT hA]
    exact (align_up_eq_iff _ _ hA).mpr h

/-- The amended C1 at int with the default alignment 4: the buffer and the instance both
have 4 bytes. -/
theorem storage_holds_sizeof_witness :
    0 < 4 ∧
      ((sample_int_4.storage_bytes zero_mem).length = Hosted.sizeof int ∧
        Hosted.sizeof int ≤ aligned_sizeof int 4 ∧
        (4 ∣ Hosted.sizeof int → aligned_sizeof int 4 = Hosted.sizeof int)) :=
  ⟨by decide, storage_holds_sizeof sample_int_4 zero_mem (by decide)⟩

/-- C10: for every hosted type T and alignment A ≥ 1, the size of aligned<T, A> is sizeof(T)
rounded up to the next multiple of A: it is at least sizeof(T), it is a multiple of A, no
smaller multiple of A is at least sizeof(T), and it equals sizeof(T) exactly when A divides
sizeof(T); so in an array of aligned<T, A> whose first element is at a multiple of A, every
element is at a multiple of A. -/
theorem aligned_sizeof_rounds_up (T : Type) [Hosted T] (AlignT : Nat) (hA : 0 < AlignT) :
    Hosted.sizeof T ≤ aligned_sizeof T AlignT ∧
      AlignT ∣ aligned_sizeof T AlignT ∧
      (∀ k : Nat, Hosted.sizeof T ≤ k → AlignT ∣ k → aligned_sizeof T AlignT ≤ k) ∧
      (aligned_sizeof T AlignT = Hosted.sizeof T ↔ AlignT ∣ Hosted.sizeof T) ∧
      (∀ base i : Nat, AlignT ∣ base → AlignT ∣ array_element_addr T AlignT base i) := by
  have hs : aligned_sizeof T AlignT = align_up (Hosted.sizeof T) AlignT := by
    unfold aligned_sizeof aligned_alignof array_sizeof
    rw [storage_alignof_pos AlignT hA]
  have hd : AlignT ∣ aligned_sizeof T AlignT := by
    rw [hs]
    exact align_up_dvd _ _
  refine ⟨?_, hd, ?_, ?_, ?_⟩
  · rw [hs]
    exact le_align_up _ _ hA
  · intro k hk hdk
    rw [hs]
    exact align_up_le_of_dvd _ _ k hA hk hdk
  · rw [hs]
    exact align_up_eq_iff _ _ hA
  · intro base i hb
    unfold array_element_addr
    exact Nat.dvd_add hb (Dvd.dvd.mul_left hd i)

/-- The statement of C10 at int with alignment 32. -/
theorem aligned_sizeof_rounds_up_witness :
    0 < 32 ∧
      (Hosted.sizeof int ≤ aligned_sizeof int 32 ∧
        32 ∣ aligned_sizeof int 32 ∧
        (∀ k : Nat, Hosted.sizeof int ≤ k → 32 ∣ k → aligned_sizeof int 32 ≤ k) ∧
        (aligned_sizeof int 32 = Hosted.sizeof int ↔ 32 ∣ Hosted.sizeof int) ∧
        (∀ base i : Nat, 32 ∣ base → 32 ∣ array_element_addr int 32 base i)) :=
  ⟨by decide, aligned_sizeof_rounds_up int 32 (by decide)⟩

/-! ## The pointer accessors -/

/-- C2: for every instance of aligned<T, A> with A ≥ 1 (so for A in 1, 2, 4, 8, 16, 32, 64),
the address returned by the mutable ptr() is the address of the buffer storage_ and is
congruent to 0 modulo A. -/
theorem ptr_is_aligned_base {T : Type} [Hosted T] {AlignT : Nat} (self : aligned T AlignT)
    (m : Mem) (hA : 0 < AlignT) :
    (self.ptr m).1.addr = self.storage_ ∧ (self.ptr m).1.addr % AlignT = 0 := by
  refine ⟨rfl, ?_⟩
  have h := self.alignas_storage_
  rw [storage_alignof_pos AlignT hA] at h
  exact Nat.mod_eq_zero_of_dvd h

/-- The statement of C2 at the int buffer with alignment 32 at address 96. -/
theorem ptr_is_aligned_base_witness :
    0 < 32 ∧
      ((sample_int_32.ptr zero_mem).1.addr = sample_int_32.storage_ ∧
        (sample_int_32.ptr zero_mem).1.addr % 32 = 0) :=
  ⟨by decide, ptr_is_aligned_base sample_int_32 zero_mem (by decide)⟩

/-- C3: on every instance the mutable ptr() and the const ptr() return the same address;
the results differ in the pointer type only. -/
theorem ptr_const_same_address {T : Type} [Hosted T] {AlignT : Nat} (self : aligned T AlignT)
    (m : Mem) :
    (self.ptr m).1.addr = (self.ptr_const m).1.addr :=
  rfl

/-! ## The reference accessors and round trips -/

/-- C4: on every instance ref() designates the object at *ptr(), the mutable ref with the
mutable ptr and the const ref with the const ptr; and for every value v, after v is written
through the mutable ref(), reading through a ptr() taken afterwards on the same instance
(mutable or const) yields v. -/
theorem ref_is_deref_ptr {T : Type} [Hosted T] {AlignT : Nat} (self : aligned T AlignT)
    (m : Mem) (v : T) :
    (self.ref m).1 = (self.ptr m).1.deref ∧
      (self.ref_const m).1 = (self.ptr_const m).1.deref ∧
      (self.ref m).1.addr = (self.ptr m).1.addr ∧
      (self.ref_const m).1.addr = (self.ptr_const m).1.addr ∧
      (self.ptr ((self.ref m).1.write v (self.ref m).2)).1.read
          (self.ptr ((self.ref m).1.write v (self.ref m).2)).2 = v ∧
      (self.ptr_const ((self.ref m).1.write v (self.ref m).2)).1.read
          (self.ptr_const ((self.ref m).1.write v (self.ref m).2)).2 = v :=
  ⟨rfl, rfl, rfl, rfl, load_store m self.storage_ v, load_store m self.storage_ v⟩

/-- C5: for every value v of T and every alignment A, after v is placed at the address
returned by the mutable ptr(), reading through ptr() (mutable or const) and through ref()
(mutable or const) each returns v. -/
theorem placement_round_trip {T : Type} [Hosted T] {AlignT : Nat} (self : aligned T AlignT)
    (m : Mem) (v : T) :
    (self.ptr (placement_new (self.ptr m).1 v (self.ptr m).2)).1.read
          (self.ptr (placement_new (self.ptr m).1 v (self.ptr m).2)).2 = v ∧
      (self.ptr_const (placement_new (self.ptr m).1 v (self.ptr m).2)).1.read
          (self.ptr_const (placement_new (self.ptr m).1 v (self.ptr m).2)).2 = v ∧
      (self.ref (placement_new (self.ptr m).1 v (self.ptr m).2)).1.read
          (self.ref (placement_new (self.ptr m).1 v (self.ptr m).2)).2 = v ∧
      (self.ref_const (placement_new (self.ptr m).1 v (self.ptr m).2)).1.read
          (self.ref_const (placement_new (self.ptr m).1 v (self.ptr m).2)).2 = v :=
  ⟨load_store m self.storage_ v, load_store m self.storage_ v,
    load_store m self.storage_ v, load_store m self.storage_ v⟩

/-- The round trip of C5 for the int 42 in a buffer of alignment 32, stricter than
alignof(int) = 4. -/
theorem placement_round_trip_witness :
    Hosted.alignof int = 4 ∧ sample_int_32.storage_ % 32 = 0 ∧
      (sample_int_32.ptr (placement_new (sample_int_32.ptr zero_mem).1 int_42
            (sample_int_32.ptr zero_mem).2)).1.read
          (sample_int_32.ptr (placement_new (sample_int_32.ptr zero_mem).1 int_42
            (sample_int_32.ptr zero_mem).2)).2 = int_42 ∧
      (sample_int_32.ref (placement_new (sample_int_32.ptr zero_mem).1 int_42
            (sample_int_32.ptr zero_mem).2)).1.read
          (sample_int_32.ref (placement_new (sample_int_32.ptr zero_mem).1 int_42
            (sample_int_32.ptr zero_mem).2)).2 = int_42 :=
  ⟨rfl, rfl, (placement_round_trip sample_int_32 zero_mem int_42).1,
    (placement_round_trip sample_int_32 zero_mem int_42).2.2.1⟩

/-! ## The default alignment -/

/-- C6: when the alignment argument is omitted the parameter is alignof(T); aligned<T> and
aligned<T, alignof(T)> are the same type, with the same size and the same divisibility of
the address ptr() returns; an explicit argument A is the parameter, whatever alignof(T) is,
and then the address is a multiple of A. -/
theorem default_alignment (T : Type) [Hosted T] :
    resolve_AlignT T none = Hosted.alignof T ∧
      aligned_t T none = aligned_t T (some (Hosted.alignof T)) ∧
      aligned_sizeof T (resolve_AlignT T none)
        = aligned_sizeof T (resolve_AlignT T (some (Hosted.alignof T))) ∧
      (∀ (self : aligned_t T none) (m : Mem), 0 < Hosted.alignof T →
        (self.ptr m).1.addr % Hosted.alignof T = 0) ∧
      (∀ (self : aligned_t T (some (Hosted.alignof T))) (m : Mem), 0 < Hosted.alignof T →
        (self.ptr m).1.addr % Hosted.alignof T = 0) ∧
      (∀ A : Nat, resolve_AlignT T (some A) = A) ∧
      (∀ (A : Nat) (self : aligned_t T (some A)) (m : Mem), 0 < A →
        (self.ptr m).1.addr % A = 0) := by
  have key : ∀ (A : Nat) (self : aligned T A) (m : Mem), 0 < A →
      (self.ptr m).1.addr % A = 0 := by
    intro A self m hA
    have h := self.alignas_storage_
    rw [storage_alignof_pos A hA] at h
    exact Nat.mod_eq_zero_of_dvd h
  exact ⟨rfl, rfl, rfl, fun self m h => key _ self m h, fun self m h => key _ self m h,
    fun _ => rfl, fun A self m h => key A self m h⟩

/-- The statement of C6 at int: the default is 4, an explicit 32 overrides it. -/
theorem default_alignment_witness :
    resolve_AlignT int none = 4 ∧ resolve_AlignT int (some 32) = 32 ∧
      (sample_int_4.ptr zero_mem).1.addr % 4 = 0 :=
  ⟨(default_alignment int).1, (default_alignment int).2.2.2.2.2.1 32,
    (default_alignment int).2.2.2.1 sample_int_4 zero_mem (by decide)⟩

/-! ## Absence of failure and of effects -/

/-- C7: on every instance and in every state of the memory (whatever the buffer holds,
whether or not a value was placed), each of the four accessors returns a result, the
pointer or reference to the address of storage_; none has an error result. -/
theorem accessors_always_return {T : Type} [Hosted T] {AlignT : Nat} (self : aligned T AlignT)
    (m : Mem) :
    (self.ptr m).1 = ⟨self.storage_⟩ ∧
      (self.ptr_const m).1 = ⟨self.storage_⟩ ∧
      (self.ref m).1 = ⟨self.storage_⟩ ∧
      (self.ref_const m).1 = ⟨self.storage_⟩ :=
  ⟨rfl, rfl, rfl, rfl⟩

/-- C8: the buffer storage_ holds sizeof(T) bytes at creation and after any sequence of
accessor calls and writes through the pointers and references they return. -/
theorem storage_length_invariant {T : Type} [Hosted T] {AlignT : Nat}
    (self : aligned T AlignT) (m : Mem) (ops : List (Op T)) :
    (self.storage_bytes m).length = Hosted.sizeof T ∧
      (self.storage_bytes (self.run m ops)).length = Hosted.sizeof T :=
  ⟨load_bytes_length _ _ _, load_bytes_length _ _ _⟩

/-- C9: calling any of the four accessors leaves the memory, and so every byte of the
buffer, unchanged. -/
theorem accessors_leave_memory {T : Type} [Hosted T] {AlignT : Nat} (self : aligned T AlignT)
    (m : Mem) :
    ((self.ptr m).2 = m ∧ (self.ptr_const m).2 = m ∧
        (self.ref m).2 = m ∧ (self.ref_const m).2 = m) ∧
      (self.storage_bytes (self.ptr m).2 = self.storage_bytes m ∧
        self.storage_bytes (self.ptr_const m).2 = self.storage_bytes m ∧
        self.storage_bytes (self.ref m).2 = self.storage_bytes m ∧
        self.storage_bytes (self.ref_const m).2 = self.storage_bytes m) :=
  ⟨⟨rfl, rfl, rfl, rfl⟩, ⟨rfl, rfl, rfl, rfl⟩⟩

end libimp
